import Mathlib

/-!
Verification development for the Data-Whisperer dynamic-table backend
(Express routes in server/routes/tables.ts, server/routes/data.ts and
server/routes/context.ts).  The route handlers are shallowly embedded:
each handler becomes a pure function from its request (and, where needed,
an explicit database state) to the response it produces together with the
SQL statement(s) it issues.  SQL text is reproduced from the template
literals of the source with surrounding whitespace normalised; bound
parameters are kept as an explicit list.
-/

namespace DW

/-- Bound parameter values as produced by the handlers.  `pNaN` stands for
the JavaScript number NaN, which `parseInt` yields on unparseable input. -/
inductive Param where
  | pNull
  | pInt (n : Int)
  | pStr (s : String)
  | pBool (b : Bool)
  | pNaN
deriving DecidableEq

/-- A request row: a JavaScript object, i.e. an ordered association list
from column name to value (`Object.keys` order). -/
abbrev Row := List (String × Param)

/-- Column names of a row, in `Object.keys` order. -/
def rowKeys (row : Row) : List String := row.map Prod.fst

/-- Value of `row[c] ?? null`: the stored value when the key is present,
`null` otherwise. -/
def lookupParam (row : Row) (c : String) : Param :=
  match row.find? (fun kv => kv.1 == c) with
  | some kv => kv.2
  | none => Param.pNull

/-- One SQL statement as issued through `$queryRawUnsafe` /
`$executeRawUnsafe`: the interpolated text plus the bound parameters. -/
structure Stmt where
  text : String
  params : List Param
deriving DecidableEq

/-- Outcome of a route handler: 200 success with a payload, 400 validation
failure, or 500 (the generic catch branch of every handler). -/
inductive ApiResult (α : Type) where
  | ok (val : α)
  | validationError (msg : String)
  | serverError (msg : String)
deriving DecidableEq

/-- Identifier grammar characters: first character class `[a-zA-Z_]`. -/
def isIdentStart (c : Char) : Bool := c.isAlpha || c = '_'

/-- Identifier grammar characters: continuation class `[a-zA-Z0-9_]`. -/
def isIdentChar (c : Char) : Bool := c.isAlphanum || c = '_'

/-- The identifier validator used by every route:
test against the anchored pattern. -/
def isValidIdent (s : String) : Bool :=
  match s.data with
  | [] => false
  | c :: cs => isIdentStart c && cs.all isIdentChar

/-- Decimal value of an ASCII digit. -/
def digitVal (c : Char) : Nat := c.toNat - 48

/-- Value of a run of ASCII digits read left to right. -/
def digitsToNat (ds : List Char) : Nat :=
  ds.foldl (fun a c => a * 10 + digitVal c) 0

/-- Longest digit run at the head of the character list, as JavaScript
`parseInt` consumes it. -/
def leadingDigits (cs : List Char) : List Char := cs.takeWhile Char.isDigit

/-- Unsigned part of JavaScript `parseInt(s, 10)`: `none` when no digit is
found (the NaN case). -/
def jsParseUnsigned (cs : List Char) : Option Nat :=
  let ds := leadingDigits cs
  if ds.isEmpty then none else some (digitsToNat ds)

/-- JavaScript `parseInt(s, 10)`: skip leading whitespace, read an optional
sign and the longest digit run; `none` models the NaN result. -/
def jsParseInt (s : String) : Option Int :=
  let cs := s.data.dropWhile (fun c => c = ' ' || c = '\t' || c = '\n' || c = '\r')
  match cs with
  | [] => none
  | c :: rest =>
    if c = '-' then (jsParseUnsigned rest).map (fun n => -(n : Int))
    else if c = '+' then (jsParseUnsigned rest).map (fun n => (n : Int))
    else (jsParseUnsigned cs).map (fun n => (n : Int))

/-- Characters removed by JavaScript `String.prototype.trim` (the
whitespace the handlers can receive). -/
def jsWhitespace (c : Char) : Bool := c = ' ' || c = '\t' || c = '\n' || c = '\r'

/-- JavaScript `s.trim()`: strip leading and trailing whitespace. -/
def jsTrim (s : String) : String :=
  ⟨((s.data.dropWhile jsWhitespace).reverse.dropWhile jsWhitespace).reverse⟩

/-- The bound key parameter built from `parseInt(id, 10)`. -/
def idParam : Option Int → Param
  | some n => Param.pInt n
  | none => Param.pNaN

/-- Double-quote wrapping applied to every interpolated identifier. -/
def quoteIdent (s : String) : String := "\"" ++ s ++ "\""

/-- Placeholder list `$1, ..., $n`. -/
def placeholderList (n : Nat) : String :=
  String.intercalate ", " ((List.range n).map (fun i => "$" ++ toString (i + 1)))

/-- POST /api/data/add: after the zod parse (table-name pattern only), take
the object keys as column names, reject an empty object, and build the
parameterized insert.  Column names are interpolated without any
grammar check. -/
def insertOneStmt (tableName : String) (row : Row) : ApiResult Stmt :=
  if !isValidIdent tableName then ApiResult.validationError "Invalid table name"
  else
    let columns := rowKeys row
    let values := row.map Prod.snd
    if columns.length = 0 then ApiResult.validationError "No data provided"
    else
      let columnNames := String.intercalate ", " (columns.map quoteIdent)
      ApiResult.ok
        { text := "INSERT INTO " ++ quoteIdent tableName ++ " (" ++ columnNames ++
            ") VALUES (" ++ placeholderList columns.length ++ ") RETURNING *;"
        , params := values }

/-- Fold step of the bulk-insert column scan: add each key of one row to
the accumulator unless already present (JavaScript `Set` insertion
order). -/
def addCols (acc : List String) (row : Row) : List String :=
  row.foldl (fun acc2 kv => if acc2.contains kv.1 then acc2 else acc2 ++ [kv.1]) acc

/-- Union of column names across all rows of a bulk insert, in first-seen
order. -/
def unionColumns (rows : List Row) : List String :=
  rows.foldl addCols []

/-- Flat bound-parameter list of the bulk insert: for each row in order,
`row[col] ?? null` for each union column in order. -/
def bulkParams (cols : List String) (rows : List Row) : List Param :=
  (rows.map (fun row => cols.map (lookupParam row))).flatten

/-- Placeholder tuple for one row of the bulk insert, starting at parameter
index `start + 1`. -/
def bulkValueRow (ncols start : Nat) : String :=
  "(" ++ String.intercalate ", "
    ((List.range ncols).map (fun j => "$" ++ toString (start + j + 1))) ++ ")"

/-- The VALUES clause of the bulk insert: one placeholder tuple per row,
parameter indices increasing across rows. -/
def bulkValuesText (ncols nrows : Nat) : String :=
  String.intercalate ", " ((List.range nrows).map (fun i => bulkValueRow ncols (i * ncols)))

/-- POST /api/data/bulk-add: zod requires a valid table name and at least
one row; the handler computes the union of column names over all rows and
builds one multi-row parameterized insert, binding null for columns a row
omits. -/
def insertManyStmt (tableName : String) (rows : List Row) : ApiResult Stmt :=
  if !isValidIdent tableName then ApiResult.validationError "Invalid table name"
  else if rows.isEmpty then ApiResult.validationError "At least one row is required"
  else
    let cols := unionColumns rows
    ApiResult.ok
      { text := "INSERT INTO " ++ quoteIdent tableName ++ " (" ++
          String.intercalate ", " (cols.map quoteIdent) ++ ") VALUES " ++
          bulkValuesText cols.length rows.length ++ " RETURNING *;"
      , params := bulkParams cols rows }

/-- Decoder for the storage-level semantics of a multi-row insert: a
statement with column list `cols` and a flat parameter list describes
`nrows` inserted rows, row `i` binding parameter `i * |cols| + j` to
column `j`. -/
def decodeRows (cols : List String) : Nat → List Param → List Row
  | 0, _ => []
  | Nat.succ n, ps => cols.zip (ps.take cols.length) :: decodeRows cols n (ps.drop cols.length)

/-- Rendering of a JavaScript number into a template literal: an integer
prints in decimal, NaN prints as `NaN`. -/
def renderNum : Option Int → String
  | some n => toString n
  | none => "NaN"

/-- Text of the paginated SELECT with the two parsed numbers interpolated
into the LIMIT/OFFSET clause. -/
def selectSql (tableName : String) (limitNum offsetNum : Option Int) : String :=
  "SELECT * FROM " ++ quoteIdent tableName ++ " ORDER BY id LIMIT " ++
    renderNum limitNum ++ " OFFSET " ++ renderNum offsetNum ++ ";"

/-- GET /api/data/:tableName: query parameters default to the strings
`100` and `0` when absent, go through `parseInt`, and the results are
interpolated directly into the LIMIT/OFFSET clause (values are not
bound and not checked for sign or NaN). -/
def selectPageStmt (tableName : String) (limitQ offsetQ : Option String) : ApiResult Stmt :=
  if !isValidIdent tableName then ApiResult.validationError "Invalid table name"
  else
    ApiResult.ok
      { text := selectSql tableName (jsParseInt (limitQ.getD "100")) (jsParseInt (offsetQ.getD "0"))
      , params := [] }

/-- PUT /api/data/:tableName/:id: validates the table name only, rejects an
empty body, builds a SET clause over exactly the supplied columns and binds
`parseInt(id, 10)` as the last parameter.  The id path segment itself is
never validated. -/
def updateByIdStmt (tableName idSeg : String) (row : Row) : ApiResult Stmt :=
  if !isValidIdent tableName then ApiResult.validationError "Invalid table name"
  else
    let columns := rowKeys row
    let values := row.map Prod.snd
    if columns.length = 0 then ApiResult.validationError "No data provided"
    else
      let setClause := String.intercalate ", "
        (columns.enum.map (fun p => quoteIdent p.2 ++ " = $" ++ toString (p.1 + 1)))
      ApiResult.ok
        { text := "UPDATE " ++ quoteIdent tableName ++ " SET " ++ setClause ++
            " WHERE id = $" ++ toString (columns.length + 1) ++ " RETURNING *;"
        , params := values ++ [idParam (jsParseInt idSeg)] }

/-- DELETE /api/data/:tableName/:id: validates the table name only and
binds `parseInt(id, 10)` as the single parameter. -/
def deleteByIdStmt (tableName idSeg : String) : ApiResult Stmt :=
  if !isValidIdent tableName then ApiResult.validationError "Invalid table name"
  else
    ApiResult.ok
      { text := "DELETE FROM " ++ quoteIdent tableName ++ " WHERE id = $1;"
      , params := [idParam (jsParseInt idSeg)] }

/-- The closed column-type enumeration of the zod schema for
POST /api/tables/create. -/
inductive ColType where
  | text
  | integer
  | real
  | boolean
  | timestamp
  | varchar255
  | jsonb
deriving DecidableEq

/-- Token spelled into the DDL for each accepted type. -/
def colTypeSql : ColType → String
  | ColType.text => "TEXT"
  | ColType.integer => "INTEGER"
  | ColType.real => "REAL"
  | ColType.boolean => "BOOLEAN"
  | ColType.timestamp => "TIMESTAMP"
  | ColType.varchar255 => "VARCHAR(255)"
  | ColType.jsonb => "JSONB"

/-- One column of a create-table request, after the zod parse (nullable
defaults to true). -/
structure ColumnDef where
  name : String
  type : ColType
  nullable : Bool
deriving DecidableEq

/-- Column definition fragment of the CREATE TABLE text. -/
def columnDefSql (c : ColumnDef) : String :=
  quoteIdent c.name ++ " " ++ colTypeSql c.type ++ (if c.nullable then "" else " NOT NULL")

/-- The CREATE TABLE statement built by POST /api/tables/create: IF NOT
EXISTS, surrogate `id SERIAL PRIMARY KEY`, the user columns, and the two
timestamp columns with CURRENT_TIMESTAMP defaults. -/
def createTableSql (tableName : String) (cols : List ColumnDef) : String :=
  "CREATE TABLE IF NOT EXISTS " ++ quoteIdent tableName ++
    " (id SERIAL PRIMARY KEY, " ++ String.intercalate ", " (cols.map columnDefSql) ++
    ", created_at TIMESTAMP DEFAULT CURRENT_TIMESTAMP, updated_at TIMESTAMP DEFAULT CURRENT_TIMESTAMP);"

/-- POST /api/tables/create, up to the statements it issues: the zod parse
checks the table-name pattern, every column-name pattern and that at least
one column is present; on success exactly one statement is executed — the
CREATE TABLE.  Trigger creation is explicitly skipped in the source
(comment at tables.ts lines 48-49), so no CREATE TRIGGER statement is ever
issued. -/
def createTableStmts (tableName : String) (cols : List ColumnDef) : ApiResult (List Stmt) :=
  if !isValidIdent tableName then ApiResult.validationError "Invalid table name"
  else if cols.any (fun c => !isValidIdent c.name) then ApiResult.validationError "Invalid column name"
  else if cols.isEmpty then ApiResult.validationError "At least one column is required"
  else ApiResult.ok [{ text := createTableSql tableName cols, params := [] }]

/-- One row of `information_schema.columns` as selected by the schema
endpoint: column name, native data type, and the YES/NO nullability
string. -/
structure InfoColumn where
  column_name : String
  data_type : String
  is_nullable : String
deriving DecidableEq

/-- Native PostgreSQL storage type that `information_schema.columns`
reports for each accepted token. -/
def nativeType : ColType → String
  | ColType.text => "text"
  | ColType.integer => "integer"
  | ColType.real => "real"
  | ColType.boolean => "boolean"
  | ColType.timestamp => "timestamp without time zone"
  | ColType.varchar255 => "character varying"
  | ColType.jsonb => "jsonb"

/-- Columns materialized by the CREATE TABLE statement, in ordinal order:
the engine-owned `id` (SERIAL PRIMARY KEY, hence integer NOT NULL), the
user columns with their native types and nullability, then the two
engine-owned nullable timestamp columns. -/
def materializedColumns (cols : List ColumnDef) : List InfoColumn :=
  { column_name := "id", data_type := "integer", is_nullable := "NO" } ::
    cols.map (fun c =>
      { column_name := c.name, data_type := nativeType c.type
      , is_nullable := if c.nullable then "YES" else "NO" }) ++
    [ { column_name := "created_at", data_type := "timestamp without time zone", is_nullable := "YES" }
    , { column_name := "updated_at", data_type := "timestamp without time zone", is_nullable := "YES" } ]

/-- Embedding vectors are opaque to the core; their contents are modelled
as integer lists. -/
abbrev Vec := List Int

/-- One record of the `TableContext` Prisma model: table name, free-text
description, and the pgvector column (which the OpenAI-variant upsert
never writes, hence the option). -/
structure Ctx where
  tableName : String
  description : String
  embedding : Option Vec
deriving DecidableEq

/-- Database state visible to the routes: materialized tables with their
introspectable columns, stored rows keyed by table and id, and the
`TableContext` records. -/
structure DbState where
  tables : List String
  schemas : List (String × List InfoColumn)
  rows : List (String × Int × Row)
  contexts : List Ctx
deriving DecidableEq

/-- POST /api/tables/create executed against a state: IF NOT EXISTS makes
the create a silent no-op success when the name already exists (user table
or reserved table alike); the handler has no duplicate-name or
reserved-name branch. -/
def createTableExec (st : DbState) (tableName : String) (cols : List ColumnDef) :
    ApiResult Unit × DbState :=
  match createTableStmts tableName cols with
  | ApiResult.validationError m => (ApiResult.validationError m, st)
  | ApiResult.serverError m => (ApiResult.serverError m, st)
  | ApiResult.ok _ =>
    if st.tables.contains tableName then (ApiResult.ok (), st)
    else
      (ApiResult.ok (),
        { st with
          tables := st.tables ++ [tableName]
          schemas := st.schemas ++ [(tableName, materializedColumns cols)] })

/-- GET /api/tables/list: every public table except the two reserved names,
which are filtered out of the listing only. -/
def listTablesHandler (st : DbState) : ApiResult (List String) :=
  ApiResult.ok (st.tables.filter (fun t => t != "TableContext" && t != "_prisma_migrations"))

/-- GET /api/tables/:tableName/schema: validates the table name, then
returns every `information_schema.columns` row of the table in ordinal
position — engine-owned columns included, types as native storage types.
A missing table yields a success with an empty column list. -/
def getSchemaHandler (st : DbState) (tableName : String) : ApiResult (List InfoColumn) :=
  if !isValidIdent tableName then ApiResult.validationError "Invalid table name"
  else
    ApiResult.ok (((st.schemas.find? (fun p => p.1 == tableName)).map Prod.snd).getD [])

/-- DELETE /api/tables/:tableName: DROP TABLE IF EXISTS followed by a
`deleteMany` of the table context — both no-ops on absent targets, so the
handler succeeds regardless. -/
def dropTableExec (st : DbState) (tableName : String) : ApiResult Unit × DbState :=
  if !isValidIdent tableName then (ApiResult.validationError "Invalid table name", st)
  else
    (ApiResult.ok (),
      { tables := st.tables.filter (fun t => t != tableName)
      , schemas := st.schemas.filter (fun p => p.1 != tableName)
      , rows := st.rows.filter (fun r => r.1 != tableName)
      , contexts := st.contexts.filter (fun c => c.tableName != tableName) })

/-- Match of the keyed WHERE clause `id = $k` under SQL three-valued
logic: the bound key reaching PostgreSQL is an integer, or NULL when
`parseInt` produced NaN (Prisma serializes raw parameters through JSON,
which turns NaN into null); `id = NULL` is never true, so a NULL key
matches no row. -/
def keyMatches (rid : Int) : Option Int → Bool
  | some n => rid == n
  | none => false

/-- DELETE /api/data/:tableName/:id executed against a state: the id path
segment goes through `parseInt` unchecked and is bound as the key
parameter; an unparseable id becomes NaN, which Prisma serializes to
NULL, so the statement still executes and matches zero rows.  The only
storage failure is an absent table (relation does not exist), which the
generic catch turns into a 500. -/
def deleteRowExec (st : DbState) (tableName idSeg : String) : ApiResult Unit × DbState :=
  if !isValidIdent tableName then (ApiResult.validationError "Invalid table name", st)
  else if !st.tables.contains tableName then
    (ApiResult.serverError "relation does not exist", st)
  else
    (ApiResult.ok (),
      { st with rows := st.rows.filter (fun r =>
          !(r.1 == tableName && keyMatches r.2.1 (jsParseInt idSeg))) })

/-- Effect of the UPDATE statement on one stored row: exactly the supplied
columns are set; no trigger exists, so no other column changes. -/
def applyPatch (row : Row) (patch : Row) : Row :=
  row.map (fun kv =>
    match patch.find? (fun p => p.1 == kv.1) with
    | some p => (kv.1, p.2)
    | none => kv)

/-- PUT /api/data/:tableName/:id executed against a state: table name
validated, empty body rejected, id passed through `parseInt` unchecked
and bound as the key (NaN serialized to NULL, matching no row); the only
storage failure is an absent table, surfaced as 500 through the generic
catch.  A matching row has exactly the supplied columns overwritten. -/
def updateRowExec (st : DbState) (tableName idSeg : String) (patch : Row) :
    ApiResult Unit × DbState :=
  if !isValidIdent tableName then (ApiResult.validationError "Invalid table name", st)
  else if patch.isEmpty then (ApiResult.validationError "No data provided", st)
  else if !st.tables.contains tableName then
    (ApiResult.serverError "relation does not exist", st)
  else
    (ApiResult.ok (),
      { st with
        rows := st.rows.map (fun r =>
          if r.1 == tableName && keyMatches r.2.1 (jsParseInt idSeg) then
            (r.1, r.2.1, applyPatch r.2.2 patch)
          else r) })

/-- DELETE /api/context/:tableName: `prisma.tableContext.delete` throws
when no record matches the unique key (Prisma error P2025), which the
handler's generic catch converts to a 500 — an absent context is an error,
not a no-op. -/
def contextDeleteExec (st : DbState) (tableName : String) : ApiResult Unit × DbState :=
  if !isValidIdent tableName then (ApiResult.validationError "Invalid table name", st)
  else if st.contexts.any (fun c => c.tableName == tableName) then
    (ApiResult.ok (), { st with contexts := st.contexts.filter (fun c => c.tableName != tableName) })
  else (ApiResult.serverError "Record to delete does not exist.", st)

/-- Upsert on the `TableContext` unique key as issued by the Gemini-variant
save: replace description and embedding when the key exists, insert
otherwise. -/
def upsertCtx (cs : List Ctx) (c : Ctx) : List Ctx :=
  if cs.any (fun x => x.tableName == c.tableName) then
    cs.map (fun x => if x.tableName == c.tableName then c else x)
  else cs ++ [c]

/-- POST /api/context, Gemini variant (tables.ts): zod checks the
table-name pattern and a non-empty description; the handler first calls the
embedding capability on the trimmed description — a failure there is
rethrown into the generic catch (500) before any write — and only then
upserts trimmed description and fresh vector together in one statement. -/
def geminiSave (embed : String → Except String Vec) (st : DbState)
    (tableName description : String) : ApiResult Ctx × DbState :=
  if !isValidIdent tableName || description.length < 1 then
    (ApiResult.validationError "Validation error", st)
  else
    match embed (jsTrim description) with
    | Except.error e => (ApiResult.serverError e, st)
    | Except.ok v =>
      let c : Ctx := { tableName := tableName, description := jsTrim description, embedding := some v }
      (ApiResult.ok c, { st with contexts := upsertCtx st.contexts c })

/-- POST /api/context, OpenAI variant (context.ts): zod checks as above,
then a Prisma upsert whose update branch writes the description only —
the embedding column is untouched, so an existing vector is carried over
under the new text — and whose create branch writes no embedding at
all. -/
def openaiSave (st : DbState) (tableName description : String) : ApiResult Ctx × DbState :=
  if !isValidIdent tableName || description.length < 1 then
    (ApiResult.validationError "Validation error", st)
  else
    match st.contexts.find? (fun x => x.tableName == tableName) with
    | some old =>
      let c : Ctx := { tableName := tableName, description := description, embedding := old.embedding }
      (ApiResult.ok c,
        { st with contexts := st.contexts.map (fun x => if x.tableName == tableName then c else x) })
    | none =>
      let c : Ctx := { tableName := tableName, description := description, embedding := none }
      (ApiResult.ok c, { st with contexts := st.contexts ++ [c] })

theorem lookupParam_cons (x : String × Param) (l : Row) (c : String) :
    lookupParam (x :: l) c = if x.1 == c then x.2 else lookupParam l c := by
  by_cases h : x.1 == c
  · simp [lookupParam, List.find?, h]
  · simp only [Bool.not_eq_true] at h
    simp [lookupParam, List.find?, h]

theorem lookupParam_eq_pNull (row : Row) (c : String) (h : c ∉ rowKeys row) :
    lookupParam row c = Param.pNull := by
  unfold lookupParam
  have hf : row.find? (fun kv => kv.1 == c) = none := by
    apply List.find?_eq_none.mpr
    intro kv hkv
    simp only [beq_iff_eq]
    intro hc
    exact h (hc ▸ List.mem_map_of_mem Prod.fst hkv)
  rw [hf]

theorem zip_self_map {α β : Type} (f : α → β) (l : List α) :
    l.zip (l.map f) = l.map (fun a => (a, f a)) := by
  induction l with
  | nil => rfl
  | cons a l ih => simp [List.zip_cons_cons, ih]

theorem bulkParams_cons (cols : List String) (r : Row) (rs : List Row) :
    bulkParams cols (r :: rs) = cols.map (lookupParam r) ++ bulkParams cols rs := by
  simp [bulkParams]

theorem decodeRows_bulkParams (cols : List String) (rows : List Row) :
    decodeRows cols rows.length (bulkParams cols rows) =
      rows.map (fun row => cols.map (fun c => (c, lookupParam row c))) := by
  induction rows with
  | nil => rfl
  | cons r rs ih =>
    have hlen : (cols.map (lookupParam r)).length = cols.length := List.length_map _ _
    have ht : (cols.map (lookupParam r) ++ bulkParams cols rs).take cols.length
        = cols.map (lookupParam r) := by
      rw [← hlen]; exact List.take_left _ _
    have hd : (cols.map (lookupParam r) ++ bulkParams cols rs).drop cols.length
        = bulkParams cols rs := by
      rw [← hlen]; exact List.drop_left _ _
    show decodeRows cols (rs.length + 1) (bulkParams cols (r :: rs)) = _
    rw [bulkParams_cons]
    show cols.zip ((cols.map (lookupParam r) ++ bulkParams cols rs).take cols.length) ::
        decodeRows cols rs.length ((cols.map (lookupParam r) ++ bulkParams cols rs).drop cols.length)
      = _
    rw [ht, hd, ih, zip_self_map]
    rfl

theorem mem_addCols (c : String) (row : Row) : ∀ acc : List String,
    c ∈ addCols acc row ↔ c ∈ acc ∨ c ∈ rowKeys row := by
  induction row with
  | nil => intro acc; simp [addCols, rowKeys]
  | cons kv row ih =>
    intro acc
    have hstep : addCols acc (kv :: row)
        = addCols (if acc.contains kv.1 then acc else acc ++ [kv.1]) row := rfl
    rw [hstep, ih]
    by_cases hc : acc.contains kv.1
    · have hmem : kv.1 ∈ acc := List.elem_iff.mp hc
      simp only [hc, if_true, rowKeys, List.map_cons, List.mem_cons]
      constructor
      · rintro (h | h)
        · exact Or.inl h
        · exact Or.inr (Or.inr h)
      · rintro (h | h | h)
        · exact Or.inl h
        · exact Or.inl (h ▸ hmem)
        · exact Or.inr h
    · rw [Bool.not_eq_true] at hc
      simp only [hc, Bool.false_eq_true, if_false, List.mem_append, List.mem_singleton,
        rowKeys, List.map_cons, List.mem_cons]
      tauto

theorem mem_unionColumns (c : String) (rows : List Row) :
    c ∈ unionColumns rows ↔ ∃ row ∈ rows, c ∈ rowKeys row := by
  suffices h : ∀ acc, c ∈ rows.foldl addCols acc ↔ c ∈ acc ∨ ∃ row ∈ rows, c ∈ rowKeys row by
    simpa [unionColumns] using h []
  induction rows with
  | nil => intro acc; simp
  | cons r rs ih =>
    intro acc
    show c ∈ rs.foldl addCols (addCols acc r) ↔ _
    rw [ih, mem_addCols]
    simp only [List.mem_cons]
    constructor
    · rintro ((h | h) | ⟨row, hrow, hk⟩)
      · exact Or.inl h
      · exact Or.inr ⟨r, Or.inl rfl, h⟩
      · exact Or.inr ⟨row, Or.inr hrow, hk⟩
    · rintro (h | ⟨row, h | hrow, hk⟩)
      · exact Or.inl (Or.inl h)
      · exact Or.inl (Or.inr (h ▸ hk))
      · exact Or.inr ⟨row, hrow, hk⟩

theorem lookupParam_applyPatch (row patch : Row) (c : String) (h : c ∉ rowKeys patch) :
    lookupParam (applyPatch row patch) c = lookupParam row c := by
  have hfind : patch.find? (fun p => p.1 == c) = none := by
    apply List.find?_eq_none.mpr
    intro p hp
    simp only [beq_iff_eq]
    intro hc
    exact h (hc ▸ List.mem_map_of_mem Prod.fst hp)
  induction row with
  | nil => rfl
  | cons kv row ih =>
    have hstep : applyPatch (kv :: row) patch
        = (match patch.find? (fun p => p.1 == kv.1) with
           | some p => (kv.1, p.2)
           | none => kv) :: applyPatch row patch := rfl
    rw [hstep]
    by_cases hk : kv.1 = c
    · subst hk
      rw [hfind]
      rw [lookupParam_cons, lookupParam_cons]
      simp
    · cases hp : patch.find? (fun p => p.1 == kv.1) with
      | none =>
        rw [lookupParam_cons, lookupParam_cons]
        simp only [beq_iff_eq, hk, if_false]
        exact ih
      | some p =>
        rw [lookupParam_cons, lookupParam_cons]
        simp only [beq_iff_eq, hk, if_false]
        exact ih

/-- C1: the claim states that every column name taken from a request row is
validated against the identifier grammar before interpolation, and that a
request with a non-grammar column name fails with a validation error
before any statement is issued.  This is false: with the non-grammar
column name `a;b` (validator rejects it), insertOne, updateById and
insertMany all succeed and interpolate the raw name into the issued
statement. -/
theorem C1_counterexample :
    isValidIdent "a;b" = false ∧
    insertOneStmt "t" [("a;b", Param.pInt 1)] =
      ApiResult.ok { text := "INSERT INTO \"t\" (\"a;b\") VALUES ($1) RETURNING *;"
                   , params := [Param.pInt 1] } ∧
    updateByIdStmt "t" "1" [("a;b", Param.pInt 2)] =
      ApiResult.ok { text := "UPDATE \"t\" SET \"a;b\" = $1 WHERE id = $2 RETURNING *;"
                   , params := [Param.pInt 2, Param.pInt 1] } ∧
    insertManyStmt "t" [[("a;b", Param.pInt 3)]] =
      ApiResult.ok { text := "INSERT INTO \"t\" (\"a;b\") VALUES ($1) RETURNING *;"
                   , params := [Param.pInt 3] } :=
  ⟨rfl, rfl, rfl, rfl⟩

/-- C1 amended: in insertOne, updateById and insertMany, a validation error
occurs exactly when the table name fails the identifier grammar or the row
set is empty; column names taken from the request are never validated, so
a request whose column names violate the grammar still issues its
statement. -/
theorem C1_amended (tableName idSeg : String) (row : Row) (rows : List Row) :
    ((∃ m, insertOneStmt tableName row = ApiResult.validationError m) ↔
      (isValidIdent tableName = false ∨ row = [])) ∧
    ((∃ m, updateByIdStmt tableName idSeg row = ApiResult.validationError m) ↔
      (isValidIdent tableName = false ∨ row = [])) ∧
    ((∃ m, insertManyStmt tableName rows = ApiResult.validationError m) ↔
      (isValidIdent tableName = false ∨ rows = [])) := by
  by_cases hv : isValidIdent tableName
  · have hlen : (rowKeys row).length = row.length := List.length_map _ _
    refine ⟨?_, ?_, ?_⟩
    · by_cases hr : row = []
      · subst hr; simp [insertOneStmt, hv, rowKeys]
      · simp [insertOneStmt, hv, hlen, List.length_eq_zero, hr]
    · by_cases hr : row = []
      · subst hr; simp [updateByIdStmt, hv, rowKeys]
      · simp [updateByIdStmt, hv, hlen, List.length_eq_zero, hr]
    · by_cases hr : rows = []
      · subst hr; simp [insertManyStmt, hv]
      · simp [insertManyStmt, hv, List.isEmpty_iff, hr]
  · rw [Bool.not_eq_true] at hv
    simp [insertOneStmt, updateByIdStmt, insertManyStmt, hv]

/-- C2: the claim states that createTable installs a trigger so every
subsequent row update refreshes updated_at automatically.  This is false:
the handler issues exactly one statement — the CREATE TABLE, whose text
contains no trigger DDL — and the effect of an UPDATE that does not
supply updated_at leaves the stored updated_at value unchanged. -/
theorem C2_counterexample :
    createTableStmts "travelers" [{ name := "age", type := ColType.integer, nullable := false }] =
      ApiResult.ok
        [{ text := "CREATE TABLE IF NOT EXISTS \"travelers\" (id SERIAL PRIMARY KEY, \"age\" INTEGER NOT NULL, created_at TIMESTAMP DEFAULT CURRENT_TIMESTAMP, updated_at TIMESTAMP DEFAULT CURRENT_TIMESTAMP);"
         , params := [] }] ∧
    applyPatch [("id", Param.pInt 1), ("age", Param.pInt 30), ("updated_at", Param.pStr "t0")]
        [("age", Param.pInt 31)]
      = [("id", Param.pInt 1), ("age", Param.pInt 31), ("updated_at", Param.pStr "t0")] :=
  ⟨rfl, rfl⟩

/-- C2 amended: createTable issues exactly one statement, the CREATE TABLE
itself (trigger creation is skipped, as the source comment records), and
consequently a row update that does not itself supply updated_at leaves
the row's updated_at value unchanged — the update timestamp is not
refreshed automatically. -/
theorem C2_amended (tableName : String) (cols : List ColumnDef)
    (h1 : isValidIdent tableName = true)
    (h2 : cols.any (fun c => !isValidIdent c.name) = false)
    (h3 : cols.isEmpty = false) :
    createTableStmts tableName cols =
      ApiResult.ok [{ text := createTableSql tableName cols, params := [] }] ∧
    (∀ row patch : Row, "updated_at" ∉ rowKeys patch →
      lookupParam (applyPatch row patch) "updated_at" = lookupParam row "updated_at") := by
  constructor
  · simp [createTableStmts, h1, h2, h3]
  · intro row patch hp
    exact lookupParam_applyPatch row patch "updated_at" hp

theorem C2_amended_witness :
    (isValidIdent "travelers" = true ∧
      ([{ name := "age", type := ColType.integer, nullable := false }] :
        List ColumnDef).isEmpty = false) ∧
    (createTableStmts "travelers" [{ name := "age", type := ColType.integer, nullable := false }] =
      ApiResult.ok [{ text := createTableSql "travelers"
                        [{ name := "age", type := ColType.integer, nullable := false }]
                    , params := [] }] ∧
    (∀ row patch : Row, "updated_at" ∉ rowKeys patch →
      lookupParam (applyPatch row patch) "updated_at" = lookupParam row "updated_at")) :=
  ⟨⟨by decide, by decide⟩,
    C2_amended "travelers" [{ name := "age", type := ColType.integer, nullable := false }]
      (by decide) (by decide) (by decide)⟩

/-- C7: the claim states that limit and offset are sanitized to
non-negative integers before being placed in the statement, so no request
can place a negative or non-numeric value there.  This is false: a limit
of `-5` is interpolated as `-5` and a non-numeric offset is interpolated
as `NaN`. -/
theorem C7_counterexample :
    selectPageStmt "t" (some "-5") (some "abc") =
      ApiResult.ok { text := "SELECT * FROM \"t\" ORDER BY id LIMIT -5 OFFSET NaN;"
                   , params := [] } :=
  rfl

/-- C7 amended: limit and offset default to 100 and 0 when absent and are
parsed with parseInt, but they are not checked for sign or numeric
validity: any parsed integer — negative included — is interpolated as-is
into the LIMIT/OFFSET clause, and an unparseable value is interpolated as
NaN. -/
theorem C7_amended (tableName : String) (h : isValidIdent tableName = true) :
    selectPageStmt tableName none none =
      ApiResult.ok { text := selectSql tableName (some 100) (some 0), params := [] } ∧
    (∀ ls os, selectPageStmt tableName (some ls) (some os) =
      ApiResult.ok { text := selectSql tableName (jsParseInt ls) (jsParseInt os)
                   , params := [] }) ∧
    (∀ n : Int, renderNum (some n) = toString n) ∧
    renderNum none = "NaN" := by
  refine ⟨?_, ?_, fun n => rfl, rfl⟩
  · show (if !isValidIdent tableName then _ else _) = _
    rw [h]
    rfl
  · intro ls os
    show (if !isValidIdent tableName then _ else _) = _
    rw [h]
    rfl

theorem C7_amended_witness :
    isValidIdent "t" = true ∧
    (selectPageStmt "t" none none =
      ApiResult.ok { text := selectSql "t" (some 100) (some 0), params := [] } ∧
    (∀ ls os, selectPageStmt "t" (some ls) (some os) =
      ApiResult.ok { text := selectSql "t" (jsParseInt ls) (jsParseInt os)
                   , params := [] }) ∧
    (∀ n : Int, renderNum (some n) = toString n) ∧
    renderNum none = "NaN") :=
  ⟨by decide, C7_amended "t" (by decide)⟩

/-- C3: the claim states that every save regenerates the stored embedding
from the supplied description and never carries a vector over from a
previous save.  This is false for the OpenAI-variant handler
(context.ts): its upsert writes the description only, so saving a new
description over an existing record keeps the previous embedding under
the new text. -/
theorem C3_counterexample :
    openaiSave
        { tables := [], schemas := [], rows := []
        , contexts := [{ tableName := "t", description := "old", embedding := some [1, 2] }] }
        "t" "new" =
      (ApiResult.ok { tableName := "t", description := "new", embedding := some [1, 2] },
        { tables := [], schemas := [], rows := []
        , contexts := [{ tableName := "t", description := "new", embedding := some [1, 2] }] }) :=
  rfl

/-- C3 amended: in the Gemini variant (tables.ts) the embedding is
regenerated from the trimmed description on every save and an embedding
failure aborts the save atomically with the store unchanged; in the
OpenAI variant (context.ts) the upsert writes only the description — an
existing record keeps its previous embedding under the new text, and a
newly created record has no embedding at all. -/
theorem C3_amended (embed : String → Except String Vec) (st : DbState)
    (tableName description : String)
    (htn : isValidIdent tableName = true) (hd : 1 ≤ description.length) :
    (∀ e, embed (jsTrim description) = Except.error e →
      geminiSave embed st tableName description = (ApiResult.serverError e, st)) ∧
    (∀ v, embed (jsTrim description) = Except.ok v →
      geminiSave embed st tableName description =
        (ApiResult.ok { tableName := tableName, description := jsTrim description
                      , embedding := some v },
          { st with contexts := upsertCtx st.contexts ({ tableName := tableName, description := jsTrim description, embedding := some v } : Ctx) })) ∧
    (∀ old : Ctx, st.contexts.find? (fun x => x.tableName == tableName) = some old →
      openaiSave st tableName description =
        (ApiResult.ok { tableName := tableName, description := description
                      , embedding := old.embedding },
          { st with contexts := st.contexts.map (fun x =>
              if x.tableName == tableName then
                { tableName := tableName, description := description
                , embedding := old.embedding }
              else x) })) ∧
    (st.contexts.find? (fun x => x.tableName == tableName) = none →
      openaiSave st tableName description =
        (ApiResult.ok { tableName := tableName, description := description, embedding := none },
          { st with contexts := st.contexts ++
              [{ tableName := tableName, description := description, embedding := none }] })) := by
  have hcond : (!isValidIdent tableName || decide (description.length < 1)) = false := by
    rw [htn]
    simp only [Bool.not_true, Bool.false_or, decide_eq_false_iff_not]
    omega
  refine ⟨?_, ?_, ?_, ?_⟩
  · intro e he
    simp [geminiSave, he]
    exact ⟨htn, by omega⟩
  · intro v hv
    simp [geminiSave, hv]
    exact ⟨htn, by omega⟩
  · intro old hold
    simp [openaiSave, hold]
    exact ⟨htn, by omega⟩
  · intro hnone
    simp [openaiSave, hnone]
    exact ⟨htn, by omega⟩

theorem C3_amended_witness :
    (isValidIdent "t" = true ∧ 1 ≤ String.length "new") ∧
    ((∀ e, (fun _s => (Except.ok [3] : Except String Vec)) (jsTrim "new") = Except.error e →
      geminiSave (fun _s => Except.ok [3])
          { tables := [], schemas := [], rows := []
          , contexts := [{ tableName := "t", description := "old", embedding := some [1, 2] }] }
          "t" "new" = (ApiResult.serverError e,
            { tables := [], schemas := [], rows := []
            , contexts := [{ tableName := "t", description := "old", embedding := some [1, 2] }] })) ∧
    (∀ v, (fun _s => (Except.ok [3] : Except String Vec)) (jsTrim "new") = Except.ok v →
      geminiSave (fun _s => Except.ok [3])
          { tables := [], schemas := [], rows := []
          , contexts := [{ tableName := "t", description := "old", embedding := some [1, 2] }] }
          "t" "new" =
        (ApiResult.ok { tableName := "t", description := jsTrim "new", embedding := some v },
          { tables := [], schemas := [], rows := []
          , contexts := upsertCtx
              [{ tableName := "t", description := "old", embedding := some [1, 2] }]
              { tableName := "t", description := jsTrim "new", embedding := some v } })) ∧
    (∀ old : Ctx,
      List.find? (fun x => x.tableName == "t")
          ([{ tableName := "t", description := "old", embedding := some [1, 2] }] : List Ctx) = some old →
      openaiSave
          { tables := [], schemas := [], rows := []
          , contexts := [{ tableName := "t", description := "old", embedding := some [1, 2] }] }
          "t" "new" =
        (ApiResult.ok { tableName := "t", description := "new", embedding := old.embedding },
          { tables := [], schemas := [], rows := []
          , contexts := List.map (fun x =>
              if x.tableName == "t" then
                { tableName := "t", description := "new", embedding := old.embedding }
              else x)
              [{ tableName := "t", description := "old", embedding := some [1, 2] }] })) ∧
    (List.find? (fun x => x.tableName == "t")
        ([{ tableName := "t", description := "old", embedding := some [1, 2] }] : List Ctx) = none →
      openaiSave
          { tables := [], schemas := [], rows := []
          , contexts := [{ tableName := "t", description := "old", embedding := some [1, 2] }] }
          "t" "new" =
        (ApiResult.ok { tableName := "t", description := "new", embedding := none },
          { tables := [], schemas := [], rows := []
          , contexts := [{ tableName := "t", description := "old", embedding := some [1, 2] },
              { tableName := "t", description := "new", embedding := none }] }))) :=
  ⟨⟨by decide, by decide⟩,
    C3_amended (fun _s => Except.ok [3])
      { tables := [], schemas := [], rows := []
      , contexts := [{ tableName := "t", description := "old", embedding := some [1, 2] }] }
      "t" "new" (by decide) (by decide)⟩

/-- C4: the claim states that getSchema returns exactly the user-defined
columns, excluding the engine-owned id and timestamp columns, with types
mapped back to the Type Registry tokens.  This is false: after creating
`travelers` with the single user column `age` (token INTEGER), the schema
endpoint returns four columns — the engine-owned id, created_at and
updated_at included — and reports the native type string `integer`, never
the token `INTEGER`. -/
theorem C4_counterexample :
    getSchemaHandler
        (createTableExec { tables := [], schemas := [], rows := [], contexts := [] }
          "travelers" [{ name := "age", type := ColType.integer, nullable := false }]).2
        "travelers" =
      ApiResult.ok
        [ { column_name := "id", data_type := "integer", is_nullable := "NO" }
        , { column_name := "age", data_type := "integer", is_nullable := "NO" }
        , { column_name := "created_at", data_type := "timestamp without time zone"
          , is_nullable := "YES" }
        , { column_name := "updated_at", data_type := "timestamp without time zone"
          , is_nullable := "YES" } ] ∧
    getSchemaHandler
        (createTableExec { tables := [], schemas := [], rows := [], contexts := [] }
          "travelers" [{ name := "age", type := ColType.integer, nullable := false }]).2
        "travelers" ≠
      ApiResult.ok [{ column_name := "age", data_type := "INTEGER", is_nullable := "NO" }] :=
  ⟨rfl, by decide⟩

/-- C4 amended: for a table created via createTable, getSchema returns all
columns of the materialized table in ordinal position — the engine-owned
surrogate id first and the two timestamp columns last, around the user
columns — each carrying its native storage type string (e.g. `integer`),
with no mapping back to the Type Registry tokens and no exclusion of
engine-owned columns. -/
theorem C4_amended (st : DbState) (tableName : String) (cols : List ColumnDef)
    (h1 : isValidIdent tableName = true)
    (h2 : cols.any (fun c => !isValidIdent c.name) = false)
    (h3 : cols.isEmpty = false)
    (hmem : tableName ∉ st.tables)
    (hfind : st.schemas.find? (fun p => p.1 == tableName) = none) :
    (createTableExec st tableName cols).1 = ApiResult.ok () ∧
    getSchemaHandler (createTableExec st tableName cols).2 tableName =
      ApiResult.ok (materializedColumns cols) := by
  have hstmts : createTableStmts tableName cols =
      ApiResult.ok [{ text := createTableSql tableName cols, params := [] }] := by
    simp [createTableStmts, h1, h2, h3]
  have hexec : createTableExec st tableName cols =
      (ApiResult.ok (),
        { st with
            tables := st.tables ++ [tableName]
            schemas := st.schemas ++ [(tableName, materializedColumns cols)] }) := by
    simp [createTableExec, hstmts, hmem]
  refine ⟨by rw [hexec], ?_⟩
  rw [hexec]
  simp only [getSchemaHandler, h1, Bool.not_true, Bool.false_eq_true, if_false]
  rw [List.find?_append, hfind]
  simp [List.find?]

theorem C4_amended_witness :
    (isValidIdent "travelers" = true ∧ "travelers" ∉ ([] : List String) ∧
      (List.find? (fun p => p.1 == "travelers")
        ([] : List (String × List InfoColumn)) = none)) ∧
    ((createTableExec { tables := [], schemas := [], rows := [], contexts := [] }
        "travelers" [{ name := "age", type := ColType.integer, nullable := false }]).1 =
      ApiResult.ok () ∧
    getSchemaHandler
        (createTableExec { tables := [], schemas := [], rows := [], contexts := [] }
          "travelers" [{ name := "age", type := ColType.integer, nullable := false }]).2
        "travelers" =
      ApiResult.ok
        (materializedColumns [{ name := "age", type := ColType.integer, nullable := false }])) :=
  ⟨⟨by decide, by decide, by decide⟩,
    C4_amended { tables := [], schemas := [], rows := [], contexts := [] }
      "travelers" [{ name := "age", type := ColType.integer, nullable := false }]
      (by decide) (by decide) (by decide) (by decide) (by decide)⟩

/-- C5: the claim states that dropTable, deleteById and context delete all
succeed as idempotent no-ops on already-absent targets.  This is false for
the context delete: on a state with no stored context, the handler's
Prisma delete throws (record not found) and the route answers with a 500
server error, not success. -/
theorem C5_counterexample :
    contextDeleteExec { tables := [], schemas := [], rows := [], contexts := [] } "travelers" =
      (ApiResult.serverError "Record to delete does not exist.",
        { tables := [], schemas := [], rows := [], contexts := [] }) :=
  rfl

/-- C5 amended: dropTable on an already-absent table is an idempotent
success (DROP TABLE IF EXISTS), deleteById on an existing table whose
keyed row is absent is an idempotent success matching zero rows, but the
context delete on an absent context fails with a 500 server error because
the Prisma delete throws when the record does not exist; none of the
three raises a NotFoundError. -/
theorem C5_amended (st : DbState) (tnDrop tnRow idSeg : String) (n : Int)
    (htnD : isValidIdent tnDrop = true)
    (htnR : isValidIdent tnRow = true)
    (hid : jsParseInt idSeg = some n)
    (hnotab : ∀ t ∈ st.tables, t ≠ tnDrop)
    (hnosch : ∀ p ∈ st.schemas, p.1 ≠ tnDrop)
    (hnotabrow : ∀ r ∈ st.rows, r.1 ≠ tnDrop)
    (hnoctxD : ∀ c ∈ st.contexts, c.tableName ≠ tnDrop)
    (htab : tnRow ∈ st.tables)
    (hnorow : ∀ r ∈ st.rows, ¬(r.1 = tnRow ∧ r.2.1 = n))
    (hnoctx : ∀ c ∈ st.contexts, c.tableName ≠ tnRow) :
    dropTableExec st tnDrop = (ApiResult.ok (), st) ∧
    deleteRowExec st tnRow idSeg = (ApiResult.ok (), st) ∧
    contextDeleteExec st tnRow =
      (ApiResult.serverError "Record to delete does not exist.", st) := by
  refine ⟨?_, ?_, ?_⟩
  · simp only [dropTableExec, htnD, Bool.not_true, Bool.false_eq_true, if_false]
    have e1 : st.tables.filter (fun t => t != tnDrop) = st.tables :=
      List.filter_eq_self.mpr (by intro t ht; simpa using hnotab t ht)
    have e2 : st.schemas.filter (fun p => p.1 != tnDrop) = st.schemas :=
      List.filter_eq_self.mpr (by intro p hp; simpa using hnosch p hp)
    have e3 : st.rows.filter (fun r => r.1 != tnDrop) = st.rows :=
      List.filter_eq_self.mpr (by intro r hr; simpa using hnotabrow r hr)
    have e4 : st.contexts.filter (fun c => c.tableName != tnDrop) = st.contexts :=
      List.filter_eq_self.mpr (by intro c hc; simpa using hnoctxD c hc)
    rw [e1, e2, e3, e4]
  · simp only [deleteRowExec, htnR, Bool.not_true, Bool.false_eq_true, if_false, htab,
      List.elem_iff.mpr htab]
    have e : st.rows.filter (fun r => !(r.1 == tnRow && keyMatches r.2.1 (jsParseInt idSeg)))
        = st.rows :=
      List.filter_eq_self.mpr (by
        intro r hr
        have hno := hnorow r hr
        rw [hid]
        simp only [keyMatches, Bool.not_eq_eq_eq_not, Bool.not_true, Bool.and_eq_false_iff]
        by_cases h1 : r.1 = tnRow
        · subst h1
          have h2 : r.2.1 ≠ n := fun hc => hno ⟨rfl, hc⟩
          right
          simpa using h2
        · left
          simpa using h1)
    rw [e]
  · simp only [contextDeleteExec, htnR, Bool.not_true, Bool.false_eq_true, if_false]
    have e : st.contexts.any (fun c => c.tableName == tnRow) = false := by
      rw [List.any_eq_false]
      intro c hc
      simpa using hnoctx c hc
    rw [e]
    simp

theorem C5_amended_witness :
    (isValidIdent "ghosts" = true ∧ isValidIdent "travelers" = true ∧
      jsParseInt "999999" = some 999999 ∧
      "travelers" ∈ (["travelers"] : List String)) ∧
    (dropTableExec { tables := ["travelers"], schemas := [], rows := [], contexts := [] }
        "ghosts" =
      (ApiResult.ok (), { tables := ["travelers"], schemas := [], rows := [], contexts := [] }) ∧
    deleteRowExec { tables := ["travelers"], schemas := [], rows := [], contexts := [] }
        "travelers" "999999" =
      (ApiResult.ok (), { tables := ["travelers"], schemas := [], rows := [], contexts := [] }) ∧
    contextDeleteExec { tables := ["travelers"], schemas := [], rows := [], contexts := [] }
        "travelers" =
      (ApiResult.serverError "Record to delete does not exist.",
        { tables := ["travelers"], schemas := [], rows := [], contexts := [] })) :=
  ⟨⟨by decide, by decide, by decide, by decide⟩,
    C5_amended { tables := ["travelers"], schemas := [], rows := [], contexts := [] }
      "ghosts" "travelers" "999999" 999999 (by decide) (by decide) (by decide)
      (by intro t ht; simp at ht; simp [ht])
      (by intro p hp; cases hp)
      (by intro r hr; cases hr)
      (by intro c hc; cases hc)
      (by decide)
      (by intro r hr; cases hr)
      (by intro c hc; cases hc)⟩

/-- C6: the claim states that createTable fails with DuplicateTable when
the requested name collides with an existing user table or a reserved
name such as the context-descriptor table.  This is false: the CREATE
TABLE uses IF NOT EXISTS and the handler has no duplicate or
reserved-name branch, so creating `TableContext` over the existing
reserved table answers success and leaves the state unchanged. -/
theorem C6_counterexample :
    createTableExec
        { tables := ["TableContext", "_prisma_migrations"], schemas := [], rows := []
        , contexts := [] }
        "TableContext" [{ name := "x", type := ColType.text, nullable := true }] =
      (ApiResult.ok (),
        { tables := ["TableContext", "_prisma_migrations"], schemas := [], rows := []
        , contexts := [] }) :=
  rfl

/-- C6 amended: a createTable request whose name collides with any
existing table — user table or reserved name alike — is a silent no-op
success (CREATE TABLE IF NOT EXISTS), never a DuplicateTable failure;
the reserved names are hidden from the table listing only. -/
theorem C6_amended (st : DbState) (tableName : String) (cols : List ColumnDef)
    (h1 : isValidIdent tableName = true)
    (h2 : cols.any (fun c => !isValidIdent c.name) = false)
    (h3 : cols.isEmpty = false)
    (h4 : tableName ∈ st.tables) :
    createTableExec st tableName cols = (ApiResult.ok (), st) ∧
    (∀ ts, listTablesHandler st = ApiResult.ok ts →
      "TableContext" ∉ ts ∧ "_prisma_migrations" ∉ ts) := by
  constructor
  · have hstmts : createTableStmts tableName cols =
        ApiResult.ok [{ text := createTableSql tableName cols, params := [] }] := by
      simp [createTableStmts, h1, h2, h3]
    simp [createTableExec, hstmts, h4]
  · intro ts hts
    have hts2 : ts = st.tables.filter
        (fun t => t != "TableContext" && t != "_prisma_migrations") := by
      have := hts
      simp only [listTablesHandler, ApiResult.ok.injEq] at this
      exact this.symm
    subst hts2
    constructor
    · intro hmem
      have := List.of_mem_filter hmem
      simp at this
    · intro hmem
      have := List.of_mem_filter hmem
      simp at this

theorem C6_amended_witness :
    (isValidIdent "TableContext" = true ∧
      "TableContext" ∈ ["TableContext", "_prisma_migrations"]) ∧
    (createTableExec
        { tables := ["TableContext", "_prisma_migrations"], schemas := [], rows := []
        , contexts := [] }
        "TableContext" [{ name := "x", type := ColType.text, nullable := true }] =
      (ApiResult.ok (),
        { tables := ["TableContext", "_prisma_migrations"], schemas := [], rows := []
        , contexts := [] }) ∧
    (∀ ts, listTablesHandler
        { tables := ["TableContext", "_prisma_migrations"], schemas := [], rows := []
        , contexts := [] } = ApiResult.ok ts →
      "TableContext" ∉ ts ∧ "_prisma_migrations" ∉ ts)) :=
  ⟨⟨by decide, by decide⟩,
    C6_amended
      { tables := ["TableContext", "_prisma_migrations"], schemas := [], rows := []
      , contexts := [] }
      "TableContext" [{ name := "x", type := ColType.text, nullable := true }]
      (by decide) (by decide) (by decide) (by decide)⟩

/-- C8: for every non-empty bulk insert, the handler builds one multi-row
parameterized insert whose column list is the union (in first-seen order)
of the column names appearing across all rows; decoding the statement's
flat parameter list at the storage level yields one inserted row per input
row, binding each row's value where present and null where the row omits
the column, and the statement returns all inserted rows.  Confirms the
claim. -/
theorem C8_bulk_union (tableName : String) (rows : List Row)
    (htn : isValidIdent tableName = true) (hne : rows ≠ []) :
    ∃ stmt, insertManyStmt tableName rows = ApiResult.ok stmt ∧
      stmt.params = bulkParams (unionColumns rows) rows ∧
      (∀ c, c ∈ unionColumns rows ↔ ∃ row ∈ rows, c ∈ rowKeys row) ∧
      decodeRows (unionColumns rows) rows.length stmt.params =
        rows.map (fun row => (unionColumns rows).map (fun c => (c, lookupParam row c))) ∧
      (decodeRows (unionColumns rows) rows.length stmt.params).length = rows.length ∧
      (∀ row ∈ rows, ∀ c, c ∉ rowKeys row → lookupParam row c = Param.pNull) := by
  have hok : insertManyStmt tableName rows =
      ApiResult.ok
        { text := "INSERT INTO " ++ quoteIdent tableName ++ " (" ++
            String.intercalate ", " ((unionColumns rows).map quoteIdent) ++ ") VALUES " ++
            bulkValuesText (unionColumns rows).length rows.length ++ " RETURNING *;"
        , params := bulkParams (unionColumns rows) rows } := by
    simp [insertManyStmt, htn, List.isEmpty_iff, hne]
  refine ⟨_, hok, rfl, fun c => mem_unionColumns c rows, ?_, ?_, ?_⟩
  · exact decodeRows_bulkParams (unionColumns rows) rows
  · rw [decodeRows_bulkParams (unionColumns rows) rows]
    exact List.length_map _ _
  · intro row _ c hc
    exact lookupParam_eq_pNull row c hc

theorem C8_bulk_union_witness :
    (isValidIdent "t" = true ∧
      ([[("a", Param.pInt 1)], [("b", Param.pInt 2)]] : List Row) ≠ []) ∧
    (∃ stmt,
      insertManyStmt "t" [[("a", Param.pInt 1)], [("b", Param.pInt 2)]] = ApiResult.ok stmt ∧
      stmt.params = bulkParams (unionColumns [[("a", Param.pInt 1)], [("b", Param.pInt 2)]])
        [[("a", Param.pInt 1)], [("b", Param.pInt 2)]] ∧
      (∀ c, c ∈ unionColumns [[("a", Param.pInt 1)], [("b", Param.pInt 2)]] ↔
        ∃ row ∈ ([[("a", Param.pInt 1)], [("b", Param.pInt 2)]] : List Row), c ∈ rowKeys row) ∧
      decodeRows (unionColumns [[("a", Param.pInt 1)], [("b", Param.pInt 2)]])
          (List.length [[("a", Param.pInt 1)], [("b", Param.pInt 2)]]) stmt.params =
        List.map (fun row => (unionColumns [[("a", Param.pInt 1)], [("b", Param.pInt 2)]]).map
            (fun c => (c, lookupParam row c)))
          [[("a", Param.pInt 1)], [("b", Param.pInt 2)]] ∧
      (decodeRows (unionColumns [[("a", Param.pInt 1)], [("b", Param.pInt 2)]])
          (List.length [[("a", Param.pInt 1)], [("b", Param.pInt 2)]]) stmt.params).length =
        List.length [[("a", Param.pInt 1)], [("b", Param.pInt 2)]] ∧
      (∀ row ∈ ([[("a", Param.pInt 1)], [("b", Param.pInt 2)]] : List Row),
        ∀ c, c ∉ rowKeys row → lookupParam row c = Param.pNull)) :=
  ⟨⟨by decide, by decide⟩,
    C8_bulk_union "t" [[("a", Param.pInt 1)], [("b", Param.pInt 2)]] (by decide) (by decide)⟩

/-- C9: the claim states that an unparseable id path segment becomes NaN,
is passed as the bound key parameter, is never rejected with a 400
validation error, and that the resulting storage failure surfaces as a
500 error.  The last part is false: Prisma serializes the NaN raw
parameter through JSON to null, so on an existing table the statement
executes with a NULL key, matches zero rows, and the handler answers
success — no storage failure occurs. -/
theorem C9_counterexample :
    jsParseInt "abc" = none ∧
    updateRowExec
        { tables := ["t"], schemas := [], rows := [("t", 1, [("a", Param.pInt 1)])]
        , contexts := [] } "t" "abc" [("a", Param.pInt 2)] =
      (ApiResult.ok (),
        { tables := ["t"], schemas := [], rows := [("t", 1, [("a", Param.pInt 1)])]
        , contexts := [] }) ∧
    deleteRowExec
        { tables := ["t"], schemas := [], rows := [("t", 1, [("a", Param.pInt 1)])]
        , contexts := [] } "t" "abc" =
      (ApiResult.ok (),
        { tables := ["t"], schemas := [], rows := [("t", 1, [("a", Param.pInt 1)])]
        , contexts := [] }) :=
  ⟨rfl, rfl, rfl⟩

/-- C9 amended: for an update or delete whose id path segment is not a
parseable integer, parseInt yields NaN, which is passed as the bound key
parameter and serialized by Prisma to SQL NULL; the request is never
rejected with a 400 validation error for the id, and on an existing
table the statement executes with the NULL key matching zero rows, so
the handler answers 200 success with the state unchanged; a 500 storage
failure arises only from an absent table (relation does not exist), not
from the id itself. -/
theorem C9_amended (st : DbState) (tableName idSeg : String) (patch : Row)
    (htn : isValidIdent tableName = true)
    (hid : jsParseInt idSeg = none)
    (hp : patch ≠ [])
    (htab : tableName ∈ st.tables) :
    (∃ stmt, updateByIdStmt tableName idSeg patch = ApiResult.ok stmt ∧
      stmt.params = patch.map Prod.snd ++ [Param.pNaN]) ∧
    updateRowExec st tableName idSeg patch = (ApiResult.ok (), st) ∧
    (∃ stmt, deleteByIdStmt tableName idSeg = ApiResult.ok stmt ∧
      stmt.params = [Param.pNaN]) ∧
    deleteRowExec st tableName idSeg = (ApiResult.ok (), st) ∧
    (∀ st2 : DbState, tableName ∉ st2.tables →
      updateRowExec st2 tableName idSeg patch =
        (ApiResult.serverError "relation does not exist", st2) ∧
      deleteRowExec st2 tableName idSeg =
        (ApiResult.serverError "relation does not exist", st2)) := by
  have hlen : (rowKeys patch).length = patch.length := List.length_map _ _
  refine ⟨?_, ?_, ?_, ?_, ?_⟩
  · have hok : updateByIdStmt tableName idSeg patch =
        ApiResult.ok
          { text := "UPDATE " ++ quoteIdent tableName ++ " SET " ++
              String.intercalate ", " ((rowKeys patch).enum.map
                (fun p => quoteIdent p.2 ++ " = $" ++ toString (p.1 + 1))) ++
              " WHERE id = $" ++ toString ((rowKeys patch).length + 1) ++ " RETURNING *;"
          , params := patch.map Prod.snd ++ [idParam (jsParseInt idSeg)] } := by
      simp [updateByIdStmt, htn, hlen, List.length_eq_zero, hp]
    exact ⟨_, hok, by rw [hid]; rfl⟩
  · simp [updateRowExec, htn, List.isEmpty_iff, hp, htab, hid, keyMatches]
  · have hok : deleteByIdStmt tableName idSeg =
        ApiResult.ok
          { text := "DELETE FROM " ++ quoteIdent tableName ++ " WHERE id = $1;"
          , params := [idParam (jsParseInt idSeg)] } := by
      simp [deleteByIdStmt, htn]
    exact ⟨_, hok, by rw [hid]; rfl⟩
  · simp [deleteRowExec, htn, htab, hid, keyMatches]
  · intro st2 h2
    constructor
    · simp [updateRowExec, htn, List.isEmpty_iff, hp, h2]
    · simp [deleteRowExec, htn, h2]

theorem C9_amended_witness :
    (isValidIdent "t" = true ∧ jsParseInt "abc" = none ∧
      ([("a", Param.pInt 1)] : Row) ≠ [] ∧ "t" ∈ (["t"] : List String)) ∧
    ((∃ stmt, updateByIdStmt "t" "abc" [("a", Param.pInt 1)] = ApiResult.ok stmt ∧
      stmt.params = List.map Prod.snd [("a", Param.pInt 1)] ++ [Param.pNaN]) ∧
    updateRowExec { tables := ["t"], schemas := [], rows := [], contexts := [] }
        "t" "abc" [("a", Param.pInt 1)] =
      (ApiResult.ok (), { tables := ["t"], schemas := [], rows := [], contexts := [] }) ∧
    (∃ stmt, deleteByIdStmt "t" "abc" = ApiResult.ok stmt ∧
      stmt.params = [Param.pNaN]) ∧
    deleteRowExec { tables := ["t"], schemas := [], rows := [], contexts := [] } "t" "abc" =
      (ApiResult.ok (), { tables := ["t"], schemas := [], rows := [], contexts := [] }) ∧
    (∀ st2 : DbState, "t" ∉ st2.tables →
      updateRowExec st2 "t" "abc" [("a", Param.pInt 1)] =
        (ApiResult.serverError "relation does not exist", st2) ∧
      deleteRowExec st2 "t" "abc" =
        (ApiResult.serverError "relation does not exist", st2))) :=
  ⟨⟨by decide, by decide, by decide, by decide⟩,
    C9_amended { tables := ["t"], schemas := [], rows := [], contexts := [] }
      "t" "abc" [("a", Param.pInt 1)] (by decide) (by decide) (by decide) (by decide)⟩

/-- C10: for every accepted context save in the Gemini-variant handler,
the stored description and the text handed to the embedding capability
both equal the input description with leading and trailing whitespace
removed; the zod check only requires length at least 1, so a
whitespace-only description passes and the stored description is
empty.  Confirms the claim. -/
theorem C10_trimmed_save (f : String → Vec) (st : DbState)
    (tableName description : String)
    (htn : isValidIdent tableName = true) (hd : 1 ≤ description.length) :
    geminiSave (fun s => Except.ok (f s)) st tableName description =
      (ApiResult.ok { tableName := tableName, description := jsTrim description
                    , embedding := some (f (jsTrim description)) },
        { st with contexts := upsertCtx st.contexts ({ tableName := tableName, description := jsTrim description, embedding := some (f (jsTrim description)) } : Ctx) }) := by
  simp [geminiSave]
  exact ⟨htn, by omega⟩

theorem C10_trimmed_save_witness :
    (isValidIdent "travelers" = true ∧ 1 ≤ String.length " " ∧ jsTrim " " = "") ∧
    geminiSave (fun s => Except.ok ((fun _t => ([7] : Vec)) s))
        { tables := [], schemas := [], rows := [], contexts := [] } "travelers" " " =
      (ApiResult.ok { tableName := "travelers", description := jsTrim " "
                    , embedding := some ((fun _t => ([7] : Vec)) (jsTrim " ")) },
        { tables := [], schemas := [], rows := [],
          contexts := upsertCtx [] ({ tableName := "travelers", description := jsTrim " ", embedding := some ((fun _t => ([7] : Vec)) (jsTrim " ")) } : Ctx) }) :=
  ⟨⟨by decide, by decide, by decide⟩,
    C10_trimmed_save (fun _t => ([7] : Vec))
      { tables := [], schemas := [], rows := [], contexts := [] }
      "travelers" " " (by decide) (by decide)⟩

end DW
